import Mathlib

/-!
Verification of the jet-engine tachometer simulator
(src/Tachometer_Simulator1.2.cpp) against its design specification.

Real-valued quantities of the program (doubles) are embedded as exact
rationals; the double constant 3.141592653589793 used for pi in both the
classifier and the RPM source is kept as that exact decimal literal.
`std::lround` (round to nearest, ties away from zero) is embedded as
`lround` below.
-/

namespace Tach

/-- Engine power bands, mirroring `enum class EnginePowerBand`. -/
inductive EnginePowerBand : Type
  | PowerOff
  | Idle
  | Climb
  | Cruise
  | Caution
  | RedLine
  | OverLimit
deriving DecidableEq, Repr

open EnginePowerBand

/-- CSV rendering of a band, mirroring `to_string(EnginePowerBand)`. -/
def to_string (band : EnginePowerBand) : String :=
  match band with
  | PowerOff  => "PowerOff"
  | Idle      => "Idle"
  | Climb     => "Climb"
  | Cruise    => "Cruise"
  | Caution   => "Caution"
  | RedLine   => "RedLine"
  | OverLimit => "OverLimit"

/-- The constant `k_pi` of `EnginePowerModel` (also the local `pi` of
`RPMSource::drive_engine`, the same decimal literal). -/
def k_pi : ℚ := 3.141592653589793

/-- Band boundary constants of `EnginePowerModel`. -/
def Idle_min : ℤ := 1000
def Idle_max : ℤ := 3500
def Climb_min : ℤ := 3501
def Climb_max : ℤ := 6000
def Cruise_min : ℤ := 6001
def Cruise_max : ℤ := 9000
def Caution_min : ℤ := 9001
def Caution_max : ℤ := 9799
def RedLine_min : ℤ := 9800
def RedLine_max : ℤ := 10200

/-- Embedding of `std::lround` on the exact rationals standing in for
doubles: round to the nearest integer, ties away from zero. -/
def lround (x : ℚ) : ℤ :=
  if x < 0 then -⌊-x + 1/2⌋ else ⌊x + 1/2⌋

/-- The band-classification chain of `EnginePowerModel::update_from_rpm`
(the cascade of if/else tests on `m_filtered_rpm`), as a function of the
filtered rpm. -/
def classifyBand (r : ℤ) : EnginePowerBand :=
  if r = 0 then PowerOff
  else if r < Idle_min then PowerOff
  else if Idle_min ≤ r ∧ r ≤ Idle_max then Idle
  else if Climb_min ≤ r ∧ r ≤ Climb_max then Climb
  else if Cruise_min ≤ r ∧ r ≤ Cruise_max then Cruise
  else if Caution_min ≤ r ∧ r ≤ Caution_max then Caution
  else if RedLine_min ≤ r ∧ r ≤ RedLine_max then RedLine
  else OverLimit

/-- The mutable state of `EnginePowerModel`: `m_raw_rpm`, `m_filtered_rpm`
and `m_powerband`. -/
structure EnginePowerModel where
  raw_rpm : ℚ
  filtered_rpm : ℤ
  powerband : EnginePowerBand
deriving DecidableEq, Repr

/-- The default-constructed `EnginePowerModel` (all members
value-initialized, band `PowerOff`). -/
def EnginePowerModel.init : EnginePowerModel :=
  { raw_rpm := 0, filtered_rpm := 0, powerband := PowerOff }

/-- `EnginePowerModel::update_from_rpm`: convert angular speed (rad/s) to
rpm, round with `lround`, classify. The member state it leaves behind is
a function of the input alone, so it is embedded as a pure function. -/
def update_from_rpm (angular_speed_rad_per_sec : ℚ) : EnginePowerModel :=
  let rpm_value := (angular_speed_rad_per_sec * 60) / (2 * k_pi)
  { raw_rpm := rpm_value
    filtered_rpm := lround rpm_value
    powerband := classifyBand (lround rpm_value) }

/-- The spec's banding table (section 4.1), written directly from the
spec's words as a totally ordered partition of the integer line, with
negative filtered rpm treated as PowerOff. Used only to compare with
`classifyBand`, which is the embedding of the source. -/
def specBandTable (r : ℤ) : EnginePowerBand :=
  if r ≤ 0 then PowerOff
  else if r ≤ 999 then PowerOff
  else if r ≤ 3500 then Idle
  else if r ≤ 6000 then Climb
  else if r ≤ 9000 then Cruise
  else if r ≤ 9799 then Caution
  else if r ≤ 10200 then RedLine
  else OverLimit

/-- The rpm-to-angular-speed conversion inside `RPMSource::drive_engine`:
`omega = (rpm * 2.0 * pi) / 60.0`. -/
def drive_omega (rpm : ℚ) : ℚ := (rpm * 2 * k_pi) / 60

/-- The spec's `round_to_nearest_integer` with ties rounded half away from
zero, written from the spec's words: below a half-fraction round down, above
it round up, and at an exact half pick the candidate farther from zero.
Used only to compare with `lround`, the embedding of the source's rounding. -/
def round_to_nearest_integer (x : ℚ) : ℤ :=
  if Int.fract x < 1/2 then ⌊x⌋
  else if 1/2 < Int.fract x then ⌊x⌋ + 1
  else if 0 ≤ x then ⌊x⌋ + 1 else ⌊x⌋

/-- Diagnostic status values, mirroring `enum class Diagnostic_Status`. -/
inductive Diagnostic_Status : Type
  | SystemSuccessful
  | SystemMaintenanceRequired
  | SystemCheckSystemFailure
deriving DecidableEq, Repr

/-- The `Tachometer_Diagnostic` record: status, message and numeric code. -/
structure Tachometer_Diagnostic where
  status_ : Diagnostic_Status
  message_ : String
  code_ : ℤ
deriving DecidableEq, Repr

/-- `Tachometer_Diagnostic::successful`. -/
def Tachometer_Diagnostic.successful (msg : String) (code : ℤ) :
    Tachometer_Diagnostic :=
  ⟨Diagnostic_Status.SystemSuccessful, msg, code⟩

/-- `Tachometer_Diagnostic::maintenance`. -/
def Tachometer_Diagnostic.maintenance (msg : String) (code : ℤ) :
    Tachometer_Diagnostic :=
  ⟨Diagnostic_Status.SystemMaintenanceRequired, msg, code⟩

/-- `Tachometer_Diagnostic::failure`. -/
def Tachometer_Diagnostic.failure (msg : String) (code : ℤ) :
    Tachometer_Diagnostic :=
  ⟨Diagnostic_Status.SystemCheckSystemFailure, msg, code⟩

/-- The constant `one_minute` of `main`. -/
def one_minute : ℤ := 60

/-- The constant `one_hour` of `main`. -/
def one_hour : ℤ := 60 * one_minute

/-- The end-of-run diagnostic policy of `main`: the if/else chain over the
final caution and redline counters. -/
def mainDiagnostic (caution_sec redline_sec : ℤ) : Tachometer_Diagnostic :=
  if redline_sec > 4 * one_hour then
    Tachometer_Diagnostic.failure
      "SYSTEM CHECK: SYSTEM FAILURE - Excessive time in REDLINE/OVERLIMIT" 2
  else if redline_sec > 1 * one_hour ∨ caution_sec > 3 * one_hour then
    Tachometer_Diagnostic.maintenance
      "SYSTEM CHECK: MAINTENANCE REQUIRED - Heavy use in CAUTION/REDLINE bands" 1
  else
    Tachometer_Diagnostic.successful
      "SYSTEM CHECK: SUCCESSFUL - Engine within expected use profile" 0

/-- The private counters of `FlightHours`: `total_seconds`,
`caution_seconds` and `redline_seconds`. -/
structure FlightHours where
  total_seconds : ℤ
  caution_seconds : ℤ
  redline_seconds : ℤ
deriving DecidableEq, Repr

/-- The default-constructed `FlightHours`: all counters initialized to 0
by their member initializers. -/
def FlightHours.init : FlightHours :=
  { total_seconds := 0, caution_seconds := 0, redline_seconds := 0 }

/-- `FlightHours::flight_log_hours`: read the engine's band, round the
elapsed simulated seconds with `lround`, and conditionally add the rounded
delta to each counter with the source's three independent if statements. -/
def flight_log_hours (engine : EnginePowerModel) (delta_seconds : ℚ)
    (fh : FlightHours) : FlightHours :=
  let band := engine.powerband
  let delta := lround delta_seconds
  let fh1 := if band ≠ PowerOff then
      { fh with total_seconds := fh.total_seconds + delta } else fh
  let fh2 := if band = Caution then
      { fh1 with caution_seconds := fh1.caution_seconds + delta } else fh1
  if band = RedLine ∨ band = OverLimit then
    { fh2 with redline_seconds := fh2.redline_seconds + delta } else fh2

/-- `FlightHours::hours`. -/
def FlightHours.hours (fh : FlightHours) : ℤ := fh.total_seconds / 3600

/-- `FlightHours::minutes`. -/
def FlightHours.minutes (fh : FlightHours) : ℤ := (fh.total_seconds % 3600) / 60

/-- `FlightHours::seconds`. -/
def FlightHours.seconds (fh : FlightHours) : ℤ := fh.total_seconds % 60

/-- `FlightHours::caution_time`. -/
def FlightHours.caution_time (fh : FlightHours) : ℤ := fh.caution_seconds

/-- `FlightHours::redline_time`. -/
def FlightHours.redline_time (fh : FlightHours) : ℤ := fh.redline_seconds

/-- Folding `flight_log_hours` over a list of (engine state, delta) pairs,
the shape of the per-tick accumulation in the main loop. -/
def runSteps (steps : List (EnginePowerModel × ℚ)) (fh : FlightHours) :
    FlightHours :=
  steps.foldl (fun acc s => flight_log_hours s.1 s.2 acc) fh

/-- One CSV data row, with the fields written by `FlightHours::csv_row` in
column order. -/
structure CsvRow where
  time_step : ℚ
  total_seconds : ℤ
  hours : ℤ
  minutes : ℤ
  seconds : ℤ
  rpm : ℤ
  band : String
  caution_seconds : ℤ
  redline_seconds : ℤ
deriving DecidableEq, Repr

/-- The header line written once by `FlightHours::csv_header`. -/
def csv_header : String :=
  "time_step,total_seconds,hours,minutes,seconds,rpm,band,caution_seconds,redline_seconds"

/-- `FlightHours::csv_row`: the row written for the current engine state and
counters at a given time step. -/
def csv_row (fh : FlightHours) (engine : EnginePowerModel) (time_step : ℚ) :
    CsvRow :=
  { time_step := time_step
    total_seconds := fh.total_seconds
    hours := fh.hours
    minutes := fh.minutes
    seconds := fh.seconds
    rpm := engine.filtered_rpm
    band := to_string engine.powerband
    caution_seconds := fh.caution_seconds
    redline_seconds := fh.redline_seconds }

/-- The constant `delta_seconds` of `main`: 60 simulated seconds per tick. -/
def delta_seconds : ℚ := 60

/-- The constant `total_ticks` of `main`: 50 hours at one tick per minute. -/
def total_ticks : ℕ := 50 * 60

/-- The first n iterations of the tick loop in `main`, with the angular
speed the random `RPMSource` feeds the engine on each tick abstracted as
the function `src`: drive the engine, accumulate the flight hours, append
one CSV row stamped `tick * delta_seconds`. Returns the engine state, the
counters and the emitted rows. -/
def simLoop (src : ℕ → ℚ) : ℕ → EnginePowerModel × FlightHours × List CsvRow
  | 0 => (EnginePowerModel.init, FlightHours.init, [])
  | n + 1 =>
    let s := simLoop src n
    let engine := update_from_rpm (src n)
    let fh := flight_log_hours engine delta_seconds s.2.1
    (engine, fh, s.2.2 ++ [csv_row fh engine ((n : ℚ) * delta_seconds)])

/-- The observable outcome of one run of `main`: the process exit code, how
many header lines and which data rows were written to the row sink, and the
final counters. -/
structure MainResult where
  exit_code : ℤ
  header_count : ℕ
  data_rows : List CsvRow
  flight_hours : FlightHours
deriving Repr

/-- The whole of `main`, with its two external effects abstracted:
`sink_ok` says whether `flight_log.csv` opened, and `src` gives the angular
speed the `RPMSource` drives the engine with on each tick. If the sink
fails to open, `main` returns 1 before the loop; otherwise it writes the
header, runs `total_ticks` ticks and returns 0. -/
def mainRun (sink_ok : Bool) (src : ℕ → ℚ) : MainResult :=
  if sink_ok then
    let s := simLoop src total_ticks
    { exit_code := 0, header_count := 1, data_rows := s.2.2,
      flight_hours := s.2.1 }
  else
    { exit_code := 1, header_count := 0, data_rows := [],
      flight_hours := FlightHours.init }

lemma floor_add_half (y : ℚ) :
    ⌊y + 1/2⌋ = if Int.fract y < 1/2 then ⌊y⌋ else ⌊y⌋ + 1 := by
  have h1 := Int.floor_add_fract y
  have h2 := Int.fract_nonneg y
  have h3 := Int.fract_lt_one y
  split_ifs with h
  · rw [Int.floor_eq_iff]
    push_cast
    constructor <;> linarith
  · rw [Int.floor_eq_iff]
    push_cast
    constructor <;> linarith

lemma lround_eq_round_to_nearest (x : ℚ) :
    lround x = round_to_nearest_integer x := by
  unfold lround round_to_nearest_integer
  rcases lt_or_le x 0 with hx | hx
  · rw [if_pos hx, floor_add_half]
    by_cases h0 : Int.fract x = 0
    · obtain ⟨n, hn⟩ : ∃ n : ℤ, (n : ℚ) = x := by
        refine ⟨⌊x⌋, ?_⟩
        have := Int.floor_add_fract x
        rw [h0, add_zero] at this
        exact this
      subst hn
      rw [show -((n : ℚ)) = ((-n : ℤ) : ℚ) by push_cast; ring]
      simp only [Int.fract_intCast, Int.floor_intCast]
      norm_num
    · have hfr : Int.fract (-x) = 1 - Int.fract x := Int.fract_neg h0
      have h2 := Int.fract_nonneg x
      have h3 := Int.fract_lt_one x
      have h4 : 0 < Int.fract x := lt_of_le_of_ne h2 (Ne.symm h0)
      have hfl : ⌊-x⌋ = -⌊x⌋ - 1 := by
        rw [Int.floor_eq_iff]
        have h1 := Int.floor_add_fract x
        push_cast
        constructor <;> linarith
      rw [hfr, hfl]
      have hx0 : ¬ 0 ≤ x := not_le.mpr hx
      split_ifs <;> first | ring1 | linarith | (exfalso; linarith)
  · rw [if_neg (not_lt.mpr hx), floor_add_half]
    have h2 := Int.fract_nonneg x
    split_ifs <;> first | rfl | linarith | (exfalso; linarith)

lemma lround_intCast (n : ℤ) : lround (n : ℚ) = n := by
  unfold lround
  have hfl : ∀ m : ℤ, ⌊(m : ℚ) + 1/2⌋ = m := by
    intro m
    rw [Int.floor_eq_iff]
    push_cast
    constructor <;> linarith
  rcases lt_or_le (n : ℚ) 0 with hn | hn
  · rw [if_pos hn, ← Int.cast_neg, hfl]
    ring
  · rw [if_neg (not_lt.mpr hn), hfl]

lemma lround_nonneg {x : ℚ} (hx : 0 ≤ x) : 0 ≤ lround x := by
  unfold lround
  rw [if_neg (not_lt.mpr hx)]
  exact Int.le_floor.mpr (by push_cast; linarith)

lemma lround_range {a b : ℤ} {x : ℚ} (h0 : 0 ≤ x)
    (ha : (a : ℚ) ≤ x) (hb : x ≤ (b : ℚ)) :
    a ≤ lround x ∧ lround x ≤ b := by
  unfold lround
  rw [if_neg (not_lt.mpr h0)]
  constructor
  · exact Int.le_floor.mpr (by push_cast; linarith)
  · have h : ⌊x + 1/2⌋ < b + 1 := Int.floor_lt.mpr (by push_cast; linarith)
    omega

set_option maxHeartbeats 1600000 in
lemma classifyBand_eq_table (r : ℤ) : classifyBand r = specBandTable r := by
  unfold classifyBand specBandTable Idle_min Idle_max Climb_min Climb_max
    Cruise_min Cruise_max Caution_min Caution_max RedLine_min RedLine_max
  split_ifs <;> first | rfl | omega

lemma drive_omega_rpm_value (rpm : ℚ) :
    drive_omega rpm * 60 / (2 * k_pi) = rpm := by
  have hpi : k_pi ≠ 0 := by norm_num [k_pi]
  unfold drive_omega
  field_simp
  ring

lemma powerband_of_drive (rpm : ℚ) :
    (update_from_rpm (drive_omega rpm)).powerband = classifyBand (lround rpm) := by
  simp only [update_from_rpm, drive_omega_rpm_value]

lemma flight_log_hours_inv {fh : FlightHours} (engine : EnginePowerModel)
    {ds : ℚ} (hd : 0 ≤ lround ds)
    (h : fh.caution_seconds + fh.redline_seconds ≤ fh.total_seconds) :
    (flight_log_hours engine ds fh).caution_seconds
        + (flight_log_hours engine ds fh).redline_seconds
      ≤ (flight_log_hours engine ds fh).total_seconds := by
  obtain ⟨raw, fr, band⟩ := engine
  cases band <;> simp [flight_log_hours] <;> omega

lemma runSteps_inv (steps : List (EnginePowerModel × ℚ)) (fh : FlightHours)
    (hsteps : ∀ s ∈ steps, 0 ≤ lround s.2)
    (h : fh.caution_seconds + fh.redline_seconds ≤ fh.total_seconds) :
    (runSteps steps fh).caution_seconds + (runSteps steps fh).redline_seconds
      ≤ (runSteps steps fh).total_seconds := by
  induction steps generalizing fh with
  | nil => exact h
  | cons s rest ih =>
    exact ih _ (fun t ht => hsteps t (List.mem_cons_of_mem s ht))
      (flight_log_hours_inv s.1 (hsteps s (List.mem_cons_self s rest)) h)

lemma simLoop_rows_length (src : ℕ → ℚ) (n : ℕ) :
    (simLoop src n).2.2.length = n := by
  induction n with
  | zero => rfl
  | succ n ih => simp [simLoop, ih]

lemma lround_delta_seconds : lround delta_seconds = 60 := by
  have h : delta_seconds = ((60 : ℤ) : ℚ) := by norm_num [delta_seconds]
  rw [h, lround_intCast]

lemma flight_log_hours_total_le (engine : EnginePowerModel)
    (fh : FlightHours) :
    (flight_log_hours engine delta_seconds fh).total_seconds
      ≤ fh.total_seconds + 60 := by
  have h60 := lround_delta_seconds
  obtain ⟨raw, fr, band⟩ := engine
  cases band <;> simp [flight_log_hours, h60] <;> omega

lemma simLoop_total_le (src : ℕ → ℚ) (n : ℕ) :
    (simLoop src n).2.1.total_seconds ≤ 60 * n := by
  induction n with
  | zero => simp [simLoop, FlightHours.init]
  | succ n ih =>
    have hstep := flight_log_hours_total_le
      (update_from_rpm (src n)) (simLoop src n).2.1
    calc (simLoop src (n + 1)).2.1.total_seconds
        = (flight_log_hours (update_from_rpm (src n)) delta_seconds
            (simLoop src n).2.1).total_seconds := rfl
      _ ≤ (simLoop src n).2.1.total_seconds + 60 := hstep
      _ ≤ 60 * n + 60 := by omega
      _ = 60 * (n + 1) := by ring

/-- C1: for every integer filtered rpm the classifier realises exactly the
spec's partition table: 0 and 1..999 (and every negative value) map to
PowerOff, 1000..3500 to Idle, 3501..6000 to Climb, 6001..9000 to Cruise,
9001..9799 to Caution, 9800..10200 to RedLine, and everything above 10200
to OverLimit. -/
theorem classifyBand_matches_spec_table (r : ℤ) :
    classifyBand r = specBandTable r :=
  classifyBand_eq_table r

/-- C4: for every angular-speed input, `update_from_rpm` stores the
unrounded conversion `angular_speed * 60 / (2 * pi)` as the raw rpm, and
the filtered rpm is that value rounded to the nearest integer with ties
half away from zero. -/
theorem update_from_rpm_conversion (w : ℚ) :
    (update_from_rpm w).raw_rpm = w * 60 / (2 * k_pi) ∧
    (update_from_rpm w).filtered_rpm
      = round_to_nearest_integer ((update_from_rpm w).raw_rpm) := by
  refine ⟨rfl, ?_⟩
  exact lround_eq_round_to_nearest _

/-- C5: the unit conversion round-trips: for every integer rpm at least 0,
converting it to angular speed with the generator's formula
`omega = rpm * 2 * pi / 60` and classifying that omega yields a filtered
rpm equal to the original integer. -/
theorem roundtrip_filtered_rpm (rpm : ℤ) (h : 0 ≤ rpm) :
    (update_from_rpm (drive_omega (rpm : ℚ))).filtered_rpm = rpm := by
  simp only [update_from_rpm, drive_omega_rpm_value]
  exact lround_intCast rpm

/-- Witness for C5 at rpm = 9800. -/
theorem roundtrip_filtered_rpm_witness :
    (update_from_rpm (drive_omega ((9800 : ℤ) : ℚ))).filtered_rpm = 9800 :=
  roundtrip_filtered_rpm 9800 (by decide)

/-- C6: for every rpm value in each of the generator's seven ranges
([0,900], [1000,3500], [3501,6000], [6001,9000], [9001,9799],
[9800,10200], [10201,11000]), converting it to angular speed with the
generator's formula and classifying it yields exactly the band the range is
intended to produce. -/
theorem generator_table_consistent (rpm : ℚ) :
    ((0 ≤ rpm ∧ rpm ≤ 900) →
      (update_from_rpm (drive_omega rpm)).powerband = PowerOff) ∧
    ((1000 ≤ rpm ∧ rpm ≤ 3500) →
      (update_from_rpm (drive_omega rpm)).powerband = Idle) ∧
    ((3501 ≤ rpm ∧ rpm ≤ 6000) →
      (update_from_rpm (drive_omega rpm)).powerband = Climb) ∧
    ((6001 ≤ rpm ∧ rpm ≤ 9000) →
      (update_from_rpm (drive_omega rpm)).powerband = Cruise) ∧
    ((9001 ≤ rpm ∧ rpm ≤ 9799) →
      (update_from_rpm (drive_omega rpm)).powerband = Caution) ∧
    ((9800 ≤ rpm ∧ rpm ≤ 10200) →
      (update_from_rpm (drive_omega rpm)).powerband = RedLine) ∧
    ((10201 ≤ rpm ∧ rpm ≤ 11000) →
      (update_from_rpm (drive_omega rpm)).powerband = OverLimit) := by
  have key : ∀ (a b : ℤ) (band : EnginePowerBand), (0 : ℚ) ≤ rpm →
      (a : ℚ) ≤ rpm → rpm ≤ (b : ℚ) →
      (∀ r : ℤ, a ≤ r → r ≤ b → specBandTable r = band) →
      (update_from_rpm (drive_omega rpm)).powerband = band := by
    intro a b band h0 ha hb htab
    rw [powerband_of_drive, classifyBand_eq_table]
    obtain ⟨hla, hlb⟩ := lround_range h0 ha hb
    exact htab _ hla hlb
  refine ⟨fun h => ?_, fun h => ?_, fun h => ?_, fun h => ?_,
          fun h => ?_, fun h => ?_, fun h => ?_⟩
  · exact key 0 900 PowerOff h.1 (by exact_mod_cast h.1) (by exact_mod_cast h.2)
      (by intro r h1 h2; unfold specBandTable; split_ifs <;> first | rfl | omega)
  · exact key 1000 3500 Idle (by linarith [h.1]) (by exact_mod_cast h.1)
      (by exact_mod_cast h.2)
      (by intro r h1 h2; unfold specBandTable; split_ifs <;> first | rfl | omega)
  · exact key 3501 6000 Climb (by linarith [h.1]) (by exact_mod_cast h.1)
      (by exact_mod_cast h.2)
      (by intro r h1 h2; unfold specBandTable; split_ifs <;> first | rfl | omega)
  · exact key 6001 9000 Cruise (by linarith [h.1]) (by exact_mod_cast h.1)
      (by exact_mod_cast h.2)
      (by intro r h1 h2; unfold specBandTable; split_ifs <;> first | rfl | omega)
  · exact key 9001 9799 Caution (by linarith [h.1]) (by exact_mod_cast h.1)
      (by exact_mod_cast h.2)
      (by intro r h1 h2; unfold specBandTable; split_ifs <;> first | rfl | omega)
  · exact key 9800 10200 RedLine (by linarith [h.1]) (by exact_mod_cast h.1)
      (by exact_mod_cast h.2)
      (by intro r h1 h2; unfold specBandTable; split_ifs <;> first | rfl | omega)
  · exact key 10201 11000 OverLimit (by linarith [h.1]) (by exact_mod_cast h.1)
      (by exact_mod_cast h.2)
      (by intro r h1 h2; unfold specBandTable; split_ifs <;> first | rfl | omega)

/-- Witness for C6 at rpm = 9500, a point of the generator's caution
range, classified Caution. -/
theorem generator_table_consistent_witness :
    (update_from_rpm (drive_omega (9500 : ℚ))).powerband = Caution :=
  (generator_table_consistent 9500).2.2.2.2.1 ⟨by norm_num, by norm_num⟩

/-- C2: the diagnostic evaluator applies its rules in strict priority order
with first match winning: redline above 4 hours gives SystemFailure with
code 2; otherwise redline above 1 hour or caution above 3 hours gives
MaintenanceRequired with code 1; otherwise Successful with code 0. In
particular redline 14401 gives code 2 for every caution value, redline 3601
with caution 0 gives code 1, caution 10801 with redline 0 gives code 1, and
both zero gives code 0. -/
theorem mainDiagnostic_priority (caution_sec redline_sec : ℤ) :
    (redline_sec > 4 * 3600 →
      (mainDiagnostic caution_sec redline_sec).status_
          = Diagnostic_Status.SystemCheckSystemFailure ∧
      (mainDiagnostic caution_sec redline_sec).code_ = 2) ∧
    (redline_sec ≤ 4 * 3600 →
      (redline_sec > 1 * 3600 ∨ caution_sec > 3 * 3600) →
      (mainDiagnostic caution_sec redline_sec).status_
          = Diagnostic_Status.SystemMaintenanceRequired ∧
      (mainDiagnostic caution_sec redline_sec).code_ = 1) ∧
    (redline_sec ≤ 4 * 3600 → redline_sec ≤ 1 * 3600 → caution_sec ≤ 3 * 3600 →
      (mainDiagnostic caution_sec redline_sec).status_
          = Diagnostic_Status.SystemSuccessful ∧
      (mainDiagnostic caution_sec redline_sec).code_ = 0) ∧
    (mainDiagnostic caution_sec 14401).code_ = 2 ∧
    (mainDiagnostic 0 3601).code_ = 1 ∧
    (mainDiagnostic 10801 0).code_ = 1 ∧
    (mainDiagnostic 0 0).code_ = 0 := by
  unfold mainDiagnostic one_hour one_minute Tachometer_Diagnostic.failure
    Tachometer_Diagnostic.maintenance Tachometer_Diagnostic.successful
  norm_num
  refine ⟨fun h => ?_, fun h1 h2 => ?_, fun h1 h2 h3 => ?_⟩
  · rw [if_pos (by omega)]
    exact ⟨rfl, rfl⟩
  · rw [if_neg (by omega), if_pos (by omega)]
    exact ⟨rfl, rfl⟩
  · rw [if_neg (by omega), if_neg (by omega)]
    exact ⟨rfl, rfl⟩

/-- Witness for C2: redline 14401 seconds with caution 5 forces the
failure branch with code 2. -/
theorem mainDiagnostic_priority_witness :
    (mainDiagnostic 5 14401).status_
        = Diagnostic_Status.SystemCheckSystemFailure ∧
    (mainDiagnostic 5 14401).code_ = 2 :=
  (mainDiagnostic_priority 5 14401).1 (by decide)

/-- C3: one accumulation step rounds the delta with `lround` and adds it to
`total_seconds` exactly when the band is not PowerOff, to `caution_seconds`
exactly when the band is Caution, and to `redline_seconds` exactly when the
band is RedLine or OverLimit; every non-matching counter is unchanged. -/
theorem flight_log_hours_step (engine : EnginePowerModel) (ds : ℚ)
    (fh : FlightHours) :
    (engine.powerband ≠ PowerOff →
      (flight_log_hours engine ds fh).total_seconds
        = fh.total_seconds + lround ds) ∧
    (engine.powerband = PowerOff →
      (flight_log_hours engine ds fh).total_seconds = fh.total_seconds) ∧
    (engine.powerband = Caution →
      (flight_log_hours engine ds fh).caution_seconds
        = fh.caution_seconds + lround ds) ∧
    (engine.powerband ≠ Caution →
      (flight_log_hours engine ds fh).caution_seconds = fh.caution_seconds) ∧
    ((engine.powerband = RedLine ∨ engine.powerband = OverLimit) →
      (flight_log_hours engine ds fh).redline_seconds
        = fh.redline_seconds + lround ds) ∧
    (¬(engine.powerband = RedLine ∨ engine.powerband = OverLimit) →
      (flight_log_hours engine ds fh).redline_seconds = fh.redline_seconds) := by
  obtain ⟨raw, fr, band⟩ := engine
  cases band <;> simp [flight_log_hours]

/-- Witness for C3: a Caution-band step with a 60-second delta adds 60 to
the caution counter. -/
theorem flight_log_hours_step_witness :
    (flight_log_hours ⟨0, 9500, Caution⟩ 60 ⟨7, 8, 9⟩).caution_seconds
      = (⟨7, 8, 9⟩ : FlightHours).caution_seconds + lround 60 :=
  (flight_log_hours_step ⟨0, 9500, Caution⟩ 60 ⟨7, 8, 9⟩).2.2.1 rfl

/-- C7: the counters are all zero at run start, and an accumulation step
with non-negative delta never decreases any of the three counters. -/
theorem flight_counters_monotone :
    (FlightHours.init.total_seconds = 0 ∧
     FlightHours.init.caution_seconds = 0 ∧
     FlightHours.init.redline_seconds = 0) ∧
    ∀ (engine : EnginePowerModel) (ds : ℚ) (fh : FlightHours), 0 ≤ ds →
      fh.total_seconds ≤ (flight_log_hours engine ds fh).total_seconds ∧
      fh.caution_seconds ≤ (flight_log_hours engine ds fh).caution_seconds ∧
      fh.redline_seconds ≤ (flight_log_hours engine ds fh).redline_seconds := by
  refine ⟨⟨rfl, rfl, rfl⟩, fun engine ds fh hds => ?_⟩
  have hd : 0 ≤ lround ds := lround_nonneg hds
  obtain ⟨raw, fr, band⟩ := engine
  cases band <;> simp [flight_log_hours] <;> omega

/-- Witness for C7: an Idle-band step with a 60-second delta does not
decrease the total counter of the counters (7, 8, 9). -/
theorem flight_counters_monotone_witness :
    (⟨7, 8, 9⟩ : FlightHours).total_seconds
      ≤ (flight_log_hours ⟨0, 2000, Idle⟩ 60 ⟨7, 8, 9⟩).total_seconds :=
  (flight_counters_monotone.2 ⟨0, 2000, Idle⟩ 60 ⟨7, 8, 9⟩ (by norm_num)).1

/-- C10: starting from the all-zero counters, after any sequence of
accumulation steps whose rounded deltas are non-negative, the caution and
redline counters together never exceed the total counter. -/
theorem caution_redline_le_total (steps : List (EnginePowerModel × ℚ))
    (hsteps : ∀ s ∈ steps, 0 ≤ lround s.2) :
    (runSteps steps FlightHours.init).caution_seconds
        + (runSteps steps FlightHours.init).redline_seconds
      ≤ (runSteps steps FlightHours.init).total_seconds :=
  runSteps_inv steps FlightHours.init hsteps (by decide)

/-- Witness for C10 on a two-step Caution and RedLine run. -/
theorem caution_redline_le_total_witness :
    (runSteps [(⟨0, 9500, Caution⟩, 60), (⟨0, 10000, RedLine⟩, 60)]
        FlightHours.init).caution_seconds
        + (runSteps [(⟨0, 9500, Caution⟩, 60), (⟨0, 10000, RedLine⟩, 60)]
        FlightHours.init).redline_seconds
      ≤ (runSteps [(⟨0, 9500, Caution⟩, 60), (⟨0, 10000, RedLine⟩, 60)]
        FlightHours.init).total_seconds :=
  caution_redline_le_total _ (by
    intro s hs
    simp only [List.mem_cons, List.mem_singleton] at hs
    rcases hs with h | h | h <;> first
      | (subst h; exact lround_nonneg (by norm_num))
      | exact absurd h (by simp))

/-- C8: when the row sink opens, `main` executes exactly 3000 ticks of 60
simulated seconds each, writes exactly one header row and exactly 3000 data
rows, and the final total counter never exceeds 180000 seconds. -/
theorem mainRun_shape (src : ℕ → ℚ) :
    total_ticks = 3000 ∧
    delta_seconds = 60 ∧
    (mainRun true src).header_count = 1 ∧
    (mainRun true src).data_rows.length = 3000 ∧
    (mainRun true src).flight_hours.total_seconds ≤ 180000 := by
  refine ⟨by norm_num [total_ticks], rfl, rfl, ?_, ?_⟩
  · show (simLoop src total_ticks).2.2.length = 3000
    rw [simLoop_rows_length]
    norm_num [total_ticks]
  · show (simLoop src total_ticks).2.1.total_seconds ≤ 180000
    have h := simLoop_total_le src total_ticks
    norm_num [total_ticks] at h ⊢
    omega

/-- C9: `main` exits with code 0 exactly when the row sink opened and the
run completed, and with code 1 exactly when the sink failed to open, in
which case no data row is written and the counters never leave their
initial state (no tick is executed). -/
theorem mainRun_exit_code (sink_ok : Bool) (src : ℕ → ℚ) :
    ((mainRun sink_ok src).exit_code = 0 ↔ sink_ok = true) ∧
    ((mainRun sink_ok src).exit_code = 1 ↔ sink_ok = false) ∧
    (sink_ok = false →
      (mainRun sink_ok src).data_rows = [] ∧
      (mainRun sink_ok src).header_count = 0 ∧
      (mainRun sink_ok src).flight_hours = FlightHours.init) := by
  cases sink_ok <;> simp [mainRun]

/-- Witness for C9: with a closed sink, no data row is written and the
counters stay initial. -/
theorem mainRun_exit_code_witness :
    (mainRun false (fun _ => 0)).data_rows = [] ∧
    (mainRun false (fun _ => 0)).header_count = 0 ∧
    (mainRun false (fun _ => 0)).flight_hours = FlightHours.init :=
  (mainRun_exit_code false (fun _ => 0)).2.2 rfl

end Tach
